import Mathlib

/-!
Formal model of the WB_PACKING paid-storage report pipeline, translated
from wb_api.py, sheets_client.py, main.py, config.py and
utils/date_utils.py.  Scalar values carried through report rows are
modelled by PyVal; network interactions are modelled by event streams
supplied by the environment, and every time.sleep call together with
every issued download request is recorded in an explicit action trace.
-/

namespace WBPacking

/-- Scalar JSON values stored in report fields.  Numeric JSON values are
modelled as integers; the pipeline never computes with them, it only
copies them into output rows. -/
inductive PyVal
  | str (s : String)
  | int (n : Int)
deriving DecidableEq

/-- config.py line 31: RETRY_DELAY = 60, the base number of seconds
between report download attempts. -/
def RETRY_DELAY : Nat := 60

/-- config.py line 32: MAX_RETRIES = 3, the transport-level retry
budget handed to the HTTP session adapter. -/
def MAX_RETRIES : Nat := 3

/-- config.py lines 35-41: HEADERS, the 23 column titles shared by the
header row and the data rows. -/
def HEADERS : List String :=
  [ "Дата расчёта", "Коэф. логистики", "ID склада", "Склад", "Коэф. склада",
    "ID поставки", "ID размера", "Размер", "Баркод", "Предмет", "Бренд",
    "Артикул продавца", "Артикул WB", "Объём", "Способ расчёта", "Сумма хранения",
    "Кол-во товаров", "Код паллетоместа", "Кол-во паллет", "Дата первонач. расчёта",
    "Скидка лояльности", "Дата фиксации тарифа", "Дата понижения тарифа" ]

/-- ASCII decimal digit test. -/
def isDigitCh (c : Char) : Bool := 48 ≤ c.toNat && c.toNat ≤ 57

/-- Numeric value of a decimal digit character. -/
def digitVal (c : Char) : Nat := c.toNat - 48

/-- Value of a run of decimal digit characters, most significant first. -/
def digitsVal (cs : List Char) : Nat := cs.foldl (fun a c => a * 10 + digitVal c) 0

/-- ASCII whitespace stripped by the Python int constructor. -/
def isPySpace (c : Char) : Bool := c = ' ' || c = '\t' || c = '\n' || c = '\r'

/-- Model of the Python conversion int(s) applied to a string: strip
surrounding whitespace, accept an optional sign followed by a nonempty
digit run, raise ValueError (here: none) otherwise.  Underscore digit
grouping and non-ASCII digits are not modelled. -/
def pyInt? (s : String) : Option Int :=
  let cs := ((s.data.dropWhile isPySpace).reverse.dropWhile isPySpace).reverse
  match cs with
  | [] => none
  | c :: rest =>
    if c = '+' then
      if rest ≠ [] && rest.all isDigitCh then some (digitsVal rest : Int) else none
    else if c = '-' then
      if rest ≠ [] && rest.all isDigitCh then some (-(digitsVal rest : Int)) else none
    else
      if cs.all isDigitCh then some (digitsVal cs : Int) else none

/-- wb_api.py lines 56-75, WildberriesAPI method handle rate limit: if
the Retry-After header is present (and not the empty string, which is
falsy in Python) and converts to an integer, wait that many seconds;
otherwise wait the draw of random.randint(60, 120), passed here as the
parameter rand. -/
def handle_rate_limit (retryAfter : Option String) (rand : Nat) : Int :=
  match retryAfter with
  | some s =>
    if s = "" then (rand : Int)
    else
      match pyInt? s with
      | some n => n
      | none => (rand : Int)
  | none => (rand : Int)

/-- Outcome of one HTTP interaction of the submit request issued by
get_task_id.  The ok payload is the value of data.taskId extracted from
the response body, which may be absent. -/
inductive SubmitEvent
  | ok (taskId : Option String)
  | rateLimited (retryAfter : Option String) (rand : Nat)
  | httpError
  | timeout
  | reqError
deriving DecidableEq

/-- wb_api.py lines 77-124, WildberriesAPI.get_task_id, driven by the
stream of HTTP outcomes its requests receive.  Returns the extracted
task id together with the list of rate-limit sleeps performed, in
order.  On HTTP 429 the code sleeps the policy wait and calls itself
again; any other outcome ends the call: a 2xx response yields the task
id field (possibly absent), and Timeout, HTTPError from
raise_for_status, or any other RequestException yield None. -/
def get_task_id : List SubmitEvent → Option String × List Int
  | [] => (none, [])
  | SubmitEvent.rateLimited ra rand :: rest =>
    let r := get_task_id rest
    (r.1, handle_rate_limit ra rand :: r.2)
  | SubmitEvent.ok tid :: _ => (tid, [])
  | SubmitEvent.httpError :: _ => (none, [])
  | SubmitEvent.timeout :: _ => (none, [])
  | SubmitEvent.reqError :: _ => (none, [])

/-- Whether a submit outcome is an HTTP 429 response. -/
def isRateLimited : SubmitEvent → Bool
  | SubmitEvent.ok _ => false
  | SubmitEvent.rateLimited _ _ => true
  | SubmitEvent.httpError => false
  | SubmitEvent.timeout => false
  | SubmitEvent.reqError => false

/-- Policy wait performed for a rate-limited submit outcome. -/
def rlWait : SubmitEvent → Int
  | SubmitEvent.rateLimited ra rand => handle_rate_limit ra rand
  | _ => 0

/-- One raw report record.  wb_api.py lines 209-233 read exactly these
23 keys with dict.get defaults; a key missing from the record is
modelled as none.  Unknown extra keys are never read, so they need no
representation. -/
structure StorageRecord where
  date : Option PyVal := none
  logWarehouseCoef : Option PyVal := none
  officeId : Option PyVal := none
  warehouse : Option PyVal := none
  warehouseCoef : Option PyVal := none
  giId : Option PyVal := none
  chrtId : Option PyVal := none
  size : Option PyVal := none
  barcode : Option PyVal := none
  subject : Option PyVal := none
  brand : Option PyVal := none
  vendorCode : Option PyVal := none
  nmId : Option PyVal := none
  volume : Option PyVal := none
  calcType : Option PyVal := none
  warehousePrice : Option PyVal := none
  barcodesCount : Option PyVal := none
  palletPlaceCode : Option PyVal := none
  palletCount : Option PyVal := none
  originalDate : Option PyVal := none
  loyaltyDiscount : Option PyVal := none
  tariffFixDate : Option PyVal := none
  tariffLowerDate : Option PyVal := none
deriving DecidableEq

/-- wb_api.py lines 209-234: one output row, fields in source order,
with the source defaults (empty string or 0) for missing keys. -/
def format_row (item : StorageRecord) : List PyVal :=
  [ item.date.getD (PyVal.str ""),
    item.logWarehouseCoef.getD (PyVal.int 0),
    item.officeId.getD (PyVal.str ""),
    item.warehouse.getD (PyVal.str ""),
    item.warehouseCoef.getD (PyVal.int 0),
    item.giId.getD (PyVal.str ""),
    item.chrtId.getD (PyVal.str ""),
    item.size.getD (PyVal.str ""),
    item.barcode.getD (PyVal.str ""),
    item.subject.getD (PyVal.str ""),
    item.brand.getD (PyVal.str ""),
    item.vendorCode.getD (PyVal.str ""),
    item.nmId.getD (PyVal.str ""),
    item.volume.getD (PyVal.int 0),
    item.calcType.getD (PyVal.str ""),
    item.warehousePrice.getD (PyVal.int 0),
    item.barcodesCount.getD (PyVal.int 0),
    item.palletPlaceCode.getD (PyVal.str ""),
    item.palletCount.getD (PyVal.int 0),
    item.originalDate.getD (PyVal.str ""),
    item.loyaltyDiscount.getD (PyVal.int 0),
    item.tariffFixDate.getD (PyVal.str ""),
    item.tariffLowerDate.getD (PyVal.str "") ]

/-- wb_api.py lines 194-237, WildberriesAPI.format_storage_data: an
empty (falsy) input returns the empty list at once, otherwise each
record is mapped to its row in input order. -/
def format_storage_data (data : List StorageRecord) : List (List PyVal) :=
  match data with
  | [] => []
  | _ => data.map format_row

/-- Outcome of one HTTP interaction of a report download request issued
by get_storage_report.  The ok payload is the parsed JSON array; the
rand fields carry the draws of the random sleeps the code performs on a
connection error (randint 30 60) and on an exhausted transport-level
429 budget (randint 180 300). -/
inductive PollEvent
  | ok (data : List StorageRecord)
  | rateLimited (retryAfter : Option String) (rand : Nat)
  | timeout
  | connError (rand : Nat)
  | reqError (tooMany429 : Bool) (rand : Nat)

/-- Observable actions of the polling loop: the deterministic sleep
before each download request, the request itself, and the three kinds
of recovery sleeps. -/
inductive Action
  | preSleep (secs : Nat)
  | request
  | rateSleep (secs : Int)
  | settleSleep (secs : Nat)
  | cooldownSleep (secs : Nat)
deriving DecidableEq

/-- wb_api.py line 136: max_attempts = 5 inside get_storage_report. -/
def max_attempts : Nat := 5

/-- Whether an action is an issued download request. -/
def isRequest : Action → Bool
  | Action.preSleep _ => false
  | Action.request => true
  | Action.rateSleep _ => false
  | Action.settleSleep _ => false
  | Action.cooldownSleep _ => false

/-- Number of download requests recorded in a trace. -/
def countRequests (acts : List Action) : Nat := (acts.filter isRequest).length

/-- wb_api.py lines 139-192, the while loop of get_storage_report, one
loop iteration per recursion step.  rem is the number of iterations the
guard still allows (max_attempts minus current_attempt), attempt is the
current_attempt counter and reqIdx numbers the download requests so the
environment can answer each one.  Every branch that increments
current_attempt recurses; a non-empty payload returns it, and a
RequestException that is neither a timeout, a connection error nor an
exhausted transport 429 budget returns None at once.  The second
component is the trace of sleeps and requests, in order. -/
def poll_go (env : Nat → PollEvent) :
    Nat → Nat → Nat → Option (List StorageRecord) × List Action
  | 0, _, _ => (none, [])
  | rem + 1, attempt, reqIdx =>
    let acts0 := [Action.preSleep (RETRY_DELAY * 2 ^ attempt), Action.request]
    match env reqIdx with
    | PollEvent.ok data =>
      if data = [] then
        let r := poll_go env rem (attempt + 1) (reqIdx + 1)
        (r.1, acts0 ++ r.2)
      else (some data, acts0)
    | PollEvent.rateLimited ra rand =>
      let r := poll_go env rem (attempt + 1) (reqIdx + 1)
      (r.1, acts0 ++ Action.rateSleep (handle_rate_limit ra rand) :: r.2)
    | PollEvent.timeout =>
      let r := poll_go env rem (attempt + 1) (reqIdx + 1)
      (r.1, acts0 ++ r.2)
    | PollEvent.connError rand =>
      let r := poll_go env rem (attempt + 1) (reqIdx + 1)
      (r.1, acts0 ++ Action.settleSleep rand :: r.2)
    | PollEvent.reqError tooMany429 rand =>
      if tooMany429 then
        let r := poll_go env rem (attempt + 1) (reqIdx + 1)
        (r.1, acts0 ++ Action.cooldownSleep rand :: r.2)
      else (none, acts0)

/-- wb_api.py lines 126-192, WildberriesAPI.get_storage_report: run the
polling loop from attempt 0 with the full budget of 5 attempts. -/
def get_storage_report (env : Nat → PollEvent) :
    Option (List StorageRecord) × List Action :=
  poll_go env max_attempts 0 0

/-- Calendar date, the date part of a Python datetime. -/
structure PyDate where
  year : Nat
  month : Nat
  day : Nat
deriving DecidableEq

/-- Decimal digit character for the last decimal digit of n. -/
def digitChar (n : Nat) : Char := Char.ofNat (48 + n % 10)

/-- Two-digit zero-padded rendering, as strftime emits for %d and %m. -/
def pad2 (n : Nat) : List Char := [digitChar (n / 10), digitChar n]

/-- Four-digit rendering, as strftime emits for %Y on years 1000-9999.
Years below 1000 render platform-dependently and are outside the model. -/
def pad4 (n : Nat) : List Char :=
  [digitChar (n / 1000), digitChar (n / 100), digitChar (n / 10), digitChar n]

/-- The two date formats the settings store uses: %Y-%m-%d and %d.%m.%Y. -/
inductive DateFmt
  | ymd
  | dmy
deriving DecidableEq

/-- datetime.strftime restricted to the two formats above. -/
def strftimeChars : DateFmt → PyDate → List Char
  | DateFmt.ymd, d => pad4 d.year ++ '-' :: (pad2 d.month ++ '-' :: pad2 d.day)
  | DateFmt.dmy, d => pad2 d.day ++ '.' :: (pad2 d.month ++ '.' :: pad4 d.year)

/-- String-valued strftime. -/
def strftime (f : DateFmt) (d : PyDate) : String := ⟨strftimeChars f d⟩

/-- Split a character list on a separator; n separators yield n+1
groups, like the separator-literal parts of an strptime format. -/
def splitCh (sep : Char) : List Char → List (List Char)
  | [] => [[]]
  | c :: cs =>
    let r := splitCh sep cs
    if c = sep then [] :: r
    else
      match r with
      | [] => [[c]]
      | g :: gs => (c :: g) :: gs

/-- Digit-run lexer of strptime: accepts between lo and hi digits. -/
def lexNum (lo hi : Nat) (cs : List Char) : Option Nat :=
  if lo ≤ cs.length && cs.length ≤ hi && cs.all isDigitCh then some (digitsVal cs)
  else none

/-- Days in a month under the proleptic Gregorian rule used by the
Python datetime module. -/
def daysInMonth (y m : Nat) : Nat :=
  if m = 2 then
    if y % 4 = 0 ∧ (y % 100 ≠ 0 ∨ y % 400 = 0) then 29 else 28
  else if m = 4 ∨ m = 6 ∨ m = 9 ∨ m = 11 then 30 else 31

/-- Validation performed by strptime and the datetime constructor:
year in 1-9999, month in 1-12, day within the month. -/
def mkValidDate (y m d : Nat) : Option PyDate :=
  if 1 ≤ y ∧ y ≤ 9999 ∧ 1 ≤ m ∧ m ≤ 12 ∧ 1 ≤ d ∧ d ≤ daysInMonth y m then
    some ⟨y, m, d⟩
  else none

/-- strptime with format %Y-%m-%d: exactly four digits for %Y, one or
two for %m and %d, dash separators, then calendar validation. -/
def parseYMD (cs : List Char) : Option PyDate :=
  match splitCh '-' cs with
  | [ys, ms, ds] =>
    match lexNum 4 4 ys, lexNum 1 2 ms, lexNum 1 2 ds with
    | some y, some m, some d => mkValidDate y m d
    | _, _, _ => none
  | _ => none

/-- strptime with format %d.%m.%Y: dot separators, then validation. -/
def parseDMY (cs : List Char) : Option PyDate :=
  match splitCh '.' cs with
  | [ds, ms, ys] =>
    match lexNum 1 2 ds, lexNum 1 2 ms, lexNum 4 4 ys with
    | some d, some m, some y => mkValidDate y m d
    | _, _, _ => none
  | _ => none

/-- sheets_client.py lines 28-50, GoogleSheetsClient method parse date:
an empty (falsy) string yields None, otherwise try %Y-%m-%d first and
%d.%m.%Y second. -/
def parse_date (s : String) : Option PyDate :=
  if s = "" then none
  else
    match parseYMD s.data with
    | some d => some d
    | none => parseDMY s.data

/-- The settings-sheet cells the pipeline reads or writes for dates:
cell B3 holds the range start string, cell B4 the last processed date
string. -/
structure SettingsState where
  b3 : Option String
  b4 : Option String
deriving DecidableEq

/-- sheets_client.py lines 203-219, method get original date format:
None when B3 is empty, %d.%m.%Y when the B3 string contains a dot,
%Y-%m-%d otherwise. -/
def get_original_date_format (st : SettingsState) : Option DateFmt :=
  match st.b3 with
  | none => none
  | some s =>
    if s = "" then none
    else if s.data.contains '.' then some DateFmt.dmy
    else some DateFmt.ymd

/-- sheets_client.py lines 188-201, update_last_processed_date: write
cell B4 with the date rendered in the original format, defaulting to
%Y-%m-%d when no original format is detected. -/
def update_last_processed_date (st : SettingsState) (d : PyDate) : SettingsState :=
  { st with b4 := some (strftime ((get_original_date_format st).getD DateFmt.ymd) d) }

/-- Environment for one credential: the stream of submit outcomes and
the stream of download outcomes its two client calls receive. -/
structure CredEnv where
  submitEvents : List SubmitEvent
  pollEnv : Nat → PollEvent

/-- main.py lines 59-83, the body of the per-credential loop of
process_storage_report: submit, fetch, format, append; the loop
continues to the next credential when the task id is falsy, when the
report data is falsy (None or the empty list), or when the formatted
data is empty.  Returns the rows appended to the destination sheet of
this credential, or none when nothing was appended. -/
def process_credential (env : CredEnv) : Option (List (List PyVal)) :=
  match (get_task_id env.submitEvents).1 with
  | none => none
  | some tid =>
    if tid = "" then none
    else
      match (get_storage_report env.pollEnv).1 with
      | none => none
      | some report =>
        if report = [] then none
        else
          match format_storage_data report with
          | [] => none
          | rows => some rows

/-- main.py lines 59-83, the loop over api_keys.items(): a failed
credential is skipped, a successful one appends its rows to its own
destination cell. -/
def process_loop : List (String × CredEnv) → List (String × List (List PyVal))
  | [] => []
  | (cell, env) :: rest =>
    match process_credential env with
    | some rows => (cell, rows) :: process_loop rest
    | none => process_loop rest

/-- main.py line 51: the hard-coded reporting week start. -/
def report_date_from : PyDate := ⟨2025, 6, 9⟩

/-- main.py line 51: the hard-coded reporting week end. -/
def report_date_to : PyDate := ⟨2025, 6, 15⟩

/-- main.py line 55: the range start string sent to the API. -/
def date_from_str : String := strftime DateFmt.ymd report_date_from

/-- main.py line 56: the range end string sent to the API. -/
def date_to_str : String := strftime DateFmt.ymd report_date_to

/-- main.py lines 27-88, process_storage_report: read the api keys,
use the fixed date range 2025-06-09 to 2025-06-15, and when at least
one key was found run the per-credential loop.  Returns the final
settings state together with the list of destination updates.  The
function body contains no call to update_last_processed_date and no
other settings write, so the settings state passes through unchanged. -/
def process_storage_report (st : SettingsState)
    (apiKeys : List (String × CredEnv)) :
    SettingsState × List (String × List (List PyVal)) :=
  match apiKeys with
  | [] => (st, [])
  | _ => (st, process_loop apiKeys)

/-- Concrete credential environment whose submit and fetch both succeed
at once, the fetch with a single record carrying no fields. -/
def okCredEnv : CredEnv :=
  ⟨[SubmitEvent.ok (some "task-123")], fun _ => PollEvent.ok [{}]⟩

/-- Concrete credential environment whose submit fails with an HTTP
error status. -/
def failCredEnv : CredEnv :=
  ⟨[SubmitEvent.httpError], fun _ => PollEvent.ok [{}]⟩

/-- Helper: when every answered download request returns a successful
empty payload, the polling loop consumes its whole remaining budget,
issues exactly one request per remaining attempt, and yields None. -/
lemma poll_go_all_empty (env : Nat → PollEvent) :
    ∀ rem attempt reqIdx, (∀ i, i < rem → env (reqIdx + i) = PollEvent.ok []) →
      (poll_go env rem attempt reqIdx).1 = none ∧
      countRequests (poll_go env rem attempt reqIdx).2 = rem := by
  intro rem
  induction rem with
  | zero =>
    intro attempt reqIdx _
    exact ⟨rfl, rfl⟩
  | succ n ih =>
    intro attempt reqIdx h
    have h0 : env reqIdx = PollEvent.ok [] := by
      simpa using h 0 (Nat.succ_pos n)
    have hrest : ∀ i, i < n → env (reqIdx + 1 + i) = PollEvent.ok [] := by
      intro i hi
      have := h (1 + i) (by omega)
      simpa [Nat.add_assoc] using this
    obtain ⟨ih1, ih2⟩ := ih (attempt + 1) (reqIdx + 1) hrest
    refine ⟨?_, ?_⟩
    · simp [poll_go, h0, ih1]
    · simp only [countRequests] at ih2 ⊢
      simp [poll_go, h0, List.filter_append, isRequest]
      omega

/-- C2: when every polling attempt yields a successful response with an
empty payload, get_storage_report returns None after consuming exactly
the 5 attempts, and no sixth download request is issued. -/
theorem c2_empty_payload_exhaustion (env : Nat → PollEvent)
    (h : ∀ i, i < 5 → env i = PollEvent.ok []) :
    (get_storage_report env).1 = none ∧
    countRequests (get_storage_report env).2 = 5 := by
  have := poll_go_all_empty env 5 0 0 (by intro i hi; simpa using h i hi)
  simpa [get_storage_report, max_attempts] using this

/-- Witness for C2 at the constant all-empty environment. -/
theorem c2_empty_payload_exhaustion_witness :
    (∀ i, i < 5 → (fun _ => PollEvent.ok ([] : List StorageRecord)) i = PollEvent.ok []) ∧
    (get_storage_report (fun _ => PollEvent.ok [])).1 = none ∧
    countRequests (get_storage_report (fun _ => PollEvent.ok [])).2 = 5 :=
  ⟨fun _ _ => rfl, c2_empty_payload_exhaustion _ (fun _ _ => rfl)⟩

/-- C5: an attempt answered by a successful non-empty payload makes the
polling loop return that payload at once: the whole remaining trace is
the pre-attempt sleep and the one request, so no further request is
issued and no further attempt is consumed. -/
theorem c5_nonempty_payload_immediate (env : Nat → PollEvent)
    (rem attempt reqIdx : Nat) (data : List StorageRecord)
    (hrem : 0 < rem) (henv : env reqIdx = PollEvent.ok data) (hne : data ≠ []) :
    poll_go env rem attempt reqIdx =
      (some data, [Action.preSleep (RETRY_DELAY * 2 ^ attempt), Action.request]) := by
  cases rem with
  | zero => exact absurd hrem (by omega)
  | succ n => simp [poll_go, henv, hne]

/-- Witness for C5 at a one-record payload. -/
theorem c5_nonempty_payload_immediate_witness :
    0 < 5 ∧
    (fun _ => PollEvent.ok [({} : StorageRecord)]) 0 = PollEvent.ok [{}] ∧
    ([({} : StorageRecord)] ≠ []) ∧
    poll_go (fun _ => PollEvent.ok [({} : StorageRecord)]) 5 0 0 =
      (some [{}], [Action.preSleep (RETRY_DELAY * 2 ^ 0), Action.request]) :=
  ⟨by omega, rfl, by simp,
    c5_nonempty_payload_immediate _ 5 0 0 [{}] (by omega) rfl (by simp)⟩

/-- C4: every polling attempt with counter value attempt, the very
first included, begins by sleeping RETRY_DELAY * 2 ^ attempt seconds
and only then issues its download request; the base RETRY_DELAY is 60. -/
theorem c4_presleep_exponential (env : Nat → PollEvent) (rem attempt reqIdx : Nat)
    (hrem : 0 < rem) :
    RETRY_DELAY = 60 ∧
    ∃ rest, (poll_go env rem attempt reqIdx).2 =
      Action.preSleep (RETRY_DELAY * 2 ^ attempt) :: Action.request :: rest := by
  refine ⟨rfl, ?_⟩
  cases rem with
  | zero => exact absurd hrem (by omega)
  | succ n =>
    cases henv : env reqIdx with
    | ok data =>
      by_cases hd : data = []
      · exact ⟨(poll_go env n (attempt + 1) (reqIdx + 1)).2, by simp [poll_go, henv, hd]⟩
      · exact ⟨[], by simp [poll_go, henv, hd]⟩
    | rateLimited ra rand =>
      exact ⟨Action.rateSleep (handle_rate_limit ra rand) ::
        (poll_go env n (attempt + 1) (reqIdx + 1)).2, by simp [poll_go, henv]⟩
    | timeout =>
      exact ⟨(poll_go env n (attempt + 1) (reqIdx + 1)).2, by simp [poll_go, henv]⟩
    | connError rand =>
      exact ⟨Action.settleSleep rand ::
        (poll_go env n (attempt + 1) (reqIdx + 1)).2, by simp [poll_go, henv]⟩
    | reqError t rand =>
      cases t
      · exact ⟨[], by simp [poll_go, henv]⟩
      · exact ⟨Action.cooldownSleep rand ::
          (poll_go env n (attempt + 1) (reqIdx + 1)).2, by simp [poll_go, henv]⟩

/-- Witness for C4 at attempt counter 3, where the sleep is 480 seconds. -/
theorem c4_presleep_exponential_witness :
    0 < 5 ∧
    (RETRY_DELAY = 60 ∧
      ∃ rest, (poll_go (fun _ => PollEvent.ok []) 5 3 0).2 =
        Action.preSleep (RETRY_DELAY * 2 ^ 3) :: Action.request :: rest) :=
  ⟨by omega, c4_presleep_exponential (fun _ => PollEvent.ok []) 5 3 0 (by omega)⟩

/-- Helper: a payload the polling loop returns as a success is never
the empty list, at any attempt counter and any remaining budget. -/
lemma poll_go_some_ne_nil (env : Nat → PollEvent) :
    ∀ rem attempt reqIdx l, (poll_go env rem attempt reqIdx).1 = some l → l ≠ [] := by
  intro rem
  induction rem with
  | zero =>
    intro attempt reqIdx l h
    exact absurd h (by simp [poll_go])
  | succ n ih =>
    intro attempt reqIdx l h
    cases henv : env reqIdx with
    | ok data =>
      by_cases hd : data = []
      · simp [poll_go, henv, hd] at h
        exact ih _ _ _ h
      · simp [poll_go, henv, hd] at h
        subst h
        exact hd
    | rateLimited ra rand =>
      simp [poll_go, henv] at h
      exact ih _ _ _ h
    | timeout =>
      simp [poll_go, henv] at h
      exact ih _ _ _ h
    | connError rand =>
      simp [poll_go, henv] at h
      exact ih _ _ _ h
    | reqError t rand =>
      cases t
      · simp [poll_go, henv] at h
      · simp [poll_go, henv] at h
        exact ih _ _ _ h

/-- C10: a successful result of get_storage_report is always a
non-empty list, because a falsy payload is treated as a failed attempt;
an empty report period is therefore indistinguishable from failure at
this interface. -/
theorem c10_success_never_empty (env : Nat → PollEvent) (l : List StorageRecord)
    (h : (get_storage_report env).1 = some l) : l ≠ [] :=
  poll_go_some_ne_nil env max_attempts 0 0 l h

/-- Witness for C10 at a one-record environment. -/
theorem c10_success_never_empty_witness :
    (get_storage_report (fun _ => PollEvent.ok [({} : StorageRecord)])).1 = some [{}] ∧
    [({} : StorageRecord)] ≠ [] :=
  ⟨rfl, c10_success_never_empty (fun _ => PollEvent.ok [({} : StorageRecord)]) [{}] rfl⟩

/-- C6: the rate-limit policy returns exactly the Retry-After hint when
it converts to an integer, and otherwise returns the draw of
randint(60, 120), which lies in the interval 60 to 120. -/
theorem c6_rate_limit_policy :
    (∀ s n rand, pyInt? s = some n → handle_rate_limit (some s) rand = n) ∧
    (∀ rand : Nat, handle_rate_limit none rand = (rand : Int)) ∧
    (∀ s rand, pyInt? s = none → handle_rate_limit (some s) rand = (rand : Int)) ∧
    (∀ s rand, pyInt? s = none → 60 ≤ rand → rand ≤ 120 →
      60 ≤ handle_rate_limit (some s) rand ∧ handle_rate_limit (some s) rand ≤ 120) := by
  have hempty : pyInt? "" = none := by decide
  have h3 : ∀ s rand, pyInt? s = none → handle_rate_limit (some s) rand = (rand : Int) := by
    intro s rand h
    by_cases hs : s = ""
    · simp [handle_rate_limit, hs]
    · simp [handle_rate_limit, hs, h]
  refine ⟨?_, fun _ => rfl, h3, ?_⟩
  · intro s n rand h
    by_cases hs : s = ""
    · subst hs
      rw [hempty] at h
      exact Option.noConfusion h
    · simp [handle_rate_limit, hs, h]
  · intro s rand h h60 h120
    rw [h3 s rand h]
    exact ⟨by exact_mod_cast h60, by exact_mod_cast h120⟩

/-- Witness for C6 at a numeric hint and at a non-numeric hint. -/
theorem c6_rate_limit_policy_witness :
    pyInt? "15" = some 15 ∧ handle_rate_limit (some "15") 90 = 15 ∧
    handle_rate_limit none 90 = 90 ∧
    pyInt? "soon" = none ∧ handle_rate_limit (some "soon") 90 = 90 ∧
    60 ≤ (90 : Nat) ∧ (90 : Nat) ≤ 120 ∧
    60 ≤ handle_rate_limit (some "soon") 90 ∧ handle_rate_limit (some "soon") 90 ≤ 120 :=
  ⟨by decide, c6_rate_limit_policy.1 "15" 15 90 (by decide),
    c6_rate_limit_policy.2.1 90, by decide,
    c6_rate_limit_policy.2.2.1 "soon" 90 (by decide),
    by decide, by decide,
    (c6_rate_limit_policy.2.2.2 "soon" 90 (by decide) (by decide) (by decide)).1,
    (c6_rate_limit_policy.2.2.2 "soon" 90 (by decide) (by decide) (by decide)).2⟩

/-- C3: a finite run of HTTP 429 answers to the submit call makes
get_task_id sleep the policy wait for each of them, in order, and then
behave exactly as the submit call on the first non-429 answer; the run
of 429 answers may have any length, no budget bounds it. -/
theorem c3_submit_unbounded_429 (pre : List SubmitEvent) (e : SubmitEvent)
    (hpre : ∀ x ∈ pre, isRateLimited x = true) (he : isRateLimited e = false) :
    (get_task_id (pre ++ [e])).1 = (get_task_id [e]).1 ∧
    (get_task_id (pre ++ [e])).2 = pre.map rlWait ∧
    (get_task_id [e]).2 = [] := by
  have hlast : (get_task_id [e]).2 = [] := by
    cases e with
    | rateLimited ra rand => simp [isRateLimited] at he
    | ok tid => rfl
    | httpError => rfl
    | timeout => rfl
    | reqError => rfl
  have main : ∀ p : List SubmitEvent, (∀ x ∈ p, isRateLimited x = true) →
      (get_task_id (p ++ [e])).1 = (get_task_id [e]).1 ∧
      (get_task_id (p ++ [e])).2 = p.map rlWait ++ (get_task_id [e]).2 := by
    intro p
    induction p with
    | nil => intro _; simp
    | cons x xs ih =>
      intro hp
      have hx := hp x (List.mem_cons_self x xs)
      have ihx := ih (fun y hy => hp y (List.mem_cons_of_mem x hy))
      cases x with
      | rateLimited ra rand =>
        obtain ⟨ih1, ih2⟩ := ihx
        constructor
        · simpa [get_task_id] using ih1
        · simp [get_task_id, rlWait, ih2]
      | ok tid => simp [isRateLimited] at hx
      | httpError => simp [isRateLimited] at hx
      | timeout => simp [isRateLimited] at hx
      | reqError => simp [isRateLimited] at hx
  obtain ⟨m1, m2⟩ := main pre hpre
  exact ⟨m1, by simp [m2, hlast], hlast⟩

/-- Witness for C3 at two 429 answers followed by a successful submit. -/
theorem c3_submit_unbounded_429_witness :
    (∀ x ∈ [SubmitEvent.rateLimited (some "15") 77,
            SubmitEvent.rateLimited none 99], isRateLimited x = true) ∧
    isRateLimited (SubmitEvent.ok (some "task-123")) = false ∧
    (get_task_id ([SubmitEvent.rateLimited (some "15") 77,
                   SubmitEvent.rateLimited none 99] ++
        [SubmitEvent.ok (some "task-123")])).1 =
      (get_task_id [SubmitEvent.ok (some "task-123")]).1 :=
  ⟨by decide, by decide, (c3_submit_unbounded_429 _ _ (by decide) (by decide)).1⟩

/-- Helper: a credential whose processing succeeds contributes its
destination update to the loop output, wherever it sits in the list. -/
lemma process_loop_mem :
    ∀ (l : List (String × CredEnv)) (cell : String) (env : CredEnv)
      (rows : List (List PyVal)),
      (cell, env) ∈ l → process_credential env = some rows →
      (cell, rows) ∈ process_loop l := by
  intro l
  induction l with
  | nil =>
    intro cell env rows h _
    simp at h
  | cons x xs ih =>
    intro cell env rows h hrows
    obtain ⟨xc, xe⟩ := x
    rcases List.mem_cons.1 h with h1 | h1
    · injection h1 with e1 e2
      subst e1
      subst e2
      simp [process_loop, hrows]
    · have hmem := ih cell env rows h1 hrows
      cases hpc : process_credential xe with
      | some r =>
        simp only [process_loop, hpc]
        exact List.mem_cons_of_mem _ hmem
      | none =>
        simp only [process_loop, hpc]
        exact hmem

/-- C7: a credential that fails to produce data is skipped without
aborting the loop: the run output with it in front is the output of the
remaining credentials, and every later successful credential still
contributes the update of its own destination. -/
theorem c7_credential_isolation (c : String × CredEnv) (rest : List (String × CredEnv))
    (hfail : process_credential c.2 = none) :
    process_loop (c :: rest) = process_loop rest ∧
    ∀ cell env rows, (cell, env) ∈ rest → process_credential env = some rows →
      (cell, rows) ∈ process_loop (c :: rest) := by
  obtain ⟨cc, ce⟩ := c
  have hfail2 : process_credential ce = none := hfail
  constructor
  · simp [process_loop, hfail2]
  · intro cell env rows hmem hrows
    exact process_loop_mem ((cc, ce) :: rest) cell env rows
      (List.mem_cons_of_mem _ hmem) hrows

/-- Witness for C7: the first credential fails at submit, the second
succeeds fully and its destination update is still produced. -/
theorem c7_credential_isolation_witness :
    process_credential failCredEnv = none ∧
    process_loop [("B1", failCredEnv), ("C1", okCredEnv)] =
      process_loop [("C1", okCredEnv)] ∧
    ("C1", [format_row {}]) ∈ process_loop [("B1", failCredEnv), ("C1", okCredEnv)] := by
  have hfail : process_credential failCredEnv = none := rfl
  have hok : process_credential okCredEnv = some [format_row {}] := rfl
  have h := c7_credential_isolation ("B1", failCredEnv) [("C1", okCredEnv)] hfail
  exact ⟨hfail, h.1, h.2 "C1" okCredEnv [format_row {}] (List.mem_cons_self _ _) hok⟩

/-- C8: the header row has 23 titles, every formatted row has exactly
the header length, and each of the 23 positions, in the fixed source
order, receives its documented default when the field is absent: 0 for
the numeric fields and the empty string for the rest. -/
theorem c8_row_shape :
    HEADERS.length = 23 ∧
    (∀ r : StorageRecord, (format_row r).length = HEADERS.length) ∧
    (∀ data : List StorageRecord, ∀ row ∈ format_storage_data data,
      row.length = HEADERS.length) ∧
    (∀ r : StorageRecord,
      (r.date = none → (format_row r).get? 0 = some (PyVal.str "")) ∧
      (r.logWarehouseCoef = none → (format_row r).get? 1 = some (PyVal.int 0)) ∧
      (r.officeId = none → (format_row r).get? 2 = some (PyVal.str "")) ∧
      (r.warehouse = none → (format_row r).get? 3 = some (PyVal.str "")) ∧
      (r.warehouseCoef = none → (format_row r).get? 4 = some (PyVal.int 0)) ∧
      (r.giId = none → (format_row r).get? 5 = some (PyVal.str "")) ∧
      (r.chrtId = none → (format_row r).get? 6 = some (PyVal.str "")) ∧
      (r.size = none → (format_row r).get? 7 = some (PyVal.str "")) ∧
      (r.barcode = none → (format_row r).get? 8 = some (PyVal.str "")) ∧
      (r.subject = none → (format_row r).get? 9 = some (PyVal.str "")) ∧
      (r.brand = none → (format_row r).get? 10 = some (PyVal.str "")) ∧
      (r.vendorCode = none → (format_row r).get? 11 = some (PyVal.str "")) ∧
      (r.nmId = none → (format_row r).get? 12 = some (PyVal.str "")) ∧
      (r.volume = none → (format_row r).get? 13 = some (PyVal.int 0)) ∧
      (r.calcType = none → (format_row r).get? 14 = some (PyVal.str "")) ∧
      (r.warehousePrice = none → (format_row r).get? 15 = some (PyVal.int 0)) ∧
      (r.barcodesCount = none → (format_row r).get? 16 = some (PyVal.int 0)) ∧
      (r.palletPlaceCode = none → (format_row r).get? 17 = some (PyVal.str "")) ∧
      (r.palletCount = none → (format_row r).get? 18 = some (PyVal.int 0)) ∧
      (r.originalDate = none → (format_row r).get? 19 = some (PyVal.str "")) ∧
      (r.loyaltyDiscount = none → (format_row r).get? 20 = some (PyVal.int 0)) ∧
      (r.tariffFixDate = none → (format_row r).get? 21 = some (PyVal.str "")) ∧
      (r.tariffLowerDate = none → (format_row r).get? 22 = some (PyVal.str ""))) := by
  refine ⟨rfl, fun r => rfl, ?_, ?_⟩
  · intro data row hrow
    cases data with
    | nil => simp [format_storage_data] at hrow
    | cons a as =>
      simp only [format_storage_data] at hrow
      obtain ⟨r, _, rfl⟩ := List.mem_map.1 hrow
      rfl
  · intro r
    refine ⟨?_, ?_, ?_, ?_, ?_, ?_, ?_, ?_, ?_, ?_, ?_, ?_, ?_, ?_, ?_, ?_, ?_, ?_,
      ?_, ?_, ?_, ?_, ?_⟩ <;>
      (intro h; simp only [format_row, h]; rfl)

/-- Witness for C8 at the all-defaults record. -/
theorem c8_row_shape_witness :
    ({} : StorageRecord).date = none ∧
    (format_row {}).get? 0 = some (PyVal.str "") ∧
    format_row {} ∈ format_storage_data [{}] ∧
    (format_row {}).length = HEADERS.length :=
  ⟨rfl, (c8_row_shape.2.2.2 {}).1 rfl,
   by simp [format_storage_data],
   c8_row_shape.2.2.1 [{}] (format_row {}) (by simp [format_storage_data])⟩

/-- C1 (amended): the per-credential loop of process_storage_report
runs to completion, but the function never advances the persisted last
processed date: it contains no call to update_last_processed_date, so
the settings state after a run equals the settings state before it. -/
theorem c1_watermark_unchanged (st : SettingsState)
    (apiKeys : List (String × CredEnv)) :
    (process_storage_report st apiKeys).1 = st := by
  cases apiKeys <;> rfl

/-- Counterexample to C1 as stated: with the stored watermark
01.06.2025 and one fully successful credential, the run leaves cell B4
at 01.06.2025, while advancing the watermark to the range end in the
stored format, as the claim requires, would write 15.06.2025. -/
theorem c1_counterexample :
    (process_storage_report ⟨some "01.01.2025", some "01.06.2025"⟩
        [("B1", okCredEnv)]).1.b4 = some "01.06.2025" ∧
    (update_last_processed_date ⟨some "01.01.2025", some "01.06.2025"⟩
        report_date_to).b4 = some "15.06.2025" ∧
    some "01.06.2025" ≠ some "15.06.2025" := by
  exact ⟨by decide, by decide, by decide⟩

/-- Helper: code point of a rendered digit. -/
lemma toNat_digitChar (n : Nat) : (digitChar n).toNat = 48 + n % 10 := by
  have h : ∀ k, k < 10 → (Char.ofNat (48 + k)).toNat = 48 + k := by decide
  have hm : n % 10 < 10 := Nat.mod_lt _ (by norm_num)
  have he : digitChar n = Char.ofNat (48 + n % 10) := rfl
  rw [he, h (n % 10) hm]

/-- Helper: reading a rendered digit back. -/
lemma digitVal_digitChar (n : Nat) : digitVal (digitChar n) = n % 10 := by
  simp [digitVal, toNat_digitChar]

/-- Helper: a rendered digit is a digit character. -/
lemma isDigitCh_digitChar (n : Nat) : isDigitCh (digitChar n) = true := by
  simp only [isDigitCh, toNat_digitChar]
  simp only [Bool.and_eq_true, decide_eq_true_eq]
  omega

/-- Helper: a rendered digit differs from any character below the digit
block, such as the dot (code 46) and the dash (code 45). -/
lemma digitChar_ne (n : Nat) (c : Char) (hc : c.toNat < 48) : digitChar n ≠ c := by
  intro h
  have h2 := congrArg Char.toNat h
  rw [toNat_digitChar] at h2
  omega

/-- Helper: no separator occurs inside a two-digit group. -/
lemma pad2_ne_sep (n : Nat) (c : Char) (hc : c.toNat < 48) :
    ∀ d ∈ pad2 n, d ≠ c := by
  intro d hd
  simp only [pad2, List.mem_cons, List.not_mem_nil, or_false] at hd
  rcases hd with rfl | rfl
  · exact digitChar_ne _ _ hc
  · exact digitChar_ne _ _ hc

/-- Helper: no separator occurs inside a four-digit group. -/
lemma pad4_ne_sep (n : Nat) (c : Char) (hc : c.toNat < 48) :
    ∀ d ∈ pad4 n, d ≠ c := by
  intro d hd
  simp only [pad4, List.mem_cons, List.not_mem_nil, or_false] at hd
  rcases hd with rfl | rfl | rfl | rfl
  · exact digitChar_ne _ _ hc
  · exact digitChar_ne _ _ hc
  · exact digitChar_ne _ _ hc
  · exact digitChar_ne _ _ hc

/-- Helper: splitting a separator-free group leaves it whole. -/
lemma splitCh_no_sep (sep : Char) (cs : List Char) (h : ∀ c ∈ cs, c ≠ sep) :
    splitCh sep cs = [cs] := by
  induction cs with
  | nil => rfl
  | cons c cs ih =>
    have hc : c ≠ sep := h c (List.mem_cons_self _ _)
    have ih2 := ih (fun d hd => h d (List.mem_cons_of_mem _ hd))
    simp [splitCh, hc, ih2]

/-- Helper: splitting peels one separator-free group off the front. -/
lemma splitCh_sep_append (sep : Char) (xs ys : List Char)
    (h : ∀ c ∈ xs, c ≠ sep) :
    splitCh sep (xs ++ sep :: ys) = xs :: splitCh sep ys := by
  induction xs with
  | nil => simp [splitCh]
  | cons c cs ih =>
    have hc : c ≠ sep := h c (List.mem_cons_self _ _)
    have ih2 := ih (fun d hd => h d (List.mem_cons_of_mem _ hd))
    simp [splitCh, hc, ih2]

/-- Helper: a two-digit group reads back to its value. -/
lemma digitsVal_pad2 (n : Nat) (h : n < 100) : digitsVal (pad2 n) = n := by
  simp only [digitsVal, pad2, List.foldl, digitVal_digitChar]
  omega

/-- Helper: a four-digit group reads back to its value. -/
lemma digitsVal_pad4 (n : Nat) (h : n < 10000) : digitsVal (pad4 n) = n := by
  simp only [digitsVal, pad4, List.foldl, digitVal_digitChar]
  omega

/-- Helper: the one-or-two-digit lexer accepts a two-digit group. -/
lemma lexNum_pad2 (n : Nat) (h : n < 100) : lexNum 1 2 (pad2 n) = some n := by
  have h1 : (pad2 n).length = 2 := rfl
  have h2 : (pad2 n).all isDigitCh = true := by
    simp [pad2, isDigitCh_digitChar]
  simp [lexNum, h1, h2, digitsVal_pad2 n h]

/-- Helper: the exactly-four-digit lexer accepts a four-digit group. -/
lemma lexNum_pad4 (n : Nat) (h : n < 10000) : lexNum 4 4 (pad4 n) = some n := by
  have h1 : (pad4 n).length = 4 := rfl
  have h2 : (pad4 n).all isDigitCh = true := by
    simp [pad4, isDigitCh_digitChar]
  simp [lexNum, h1, h2, digitsVal_pad4 n h]

/-- Helper: months never exceed 31 days. -/
lemma daysInMonth_le (y m : Nat) : daysInMonth y m ≤ 31 := by
  simp only [daysInMonth]
  split_ifs <;> omega

/-- Helper: a date rendered as %d.%m.%Y parses back under %d.%m.%Y. -/
lemma parseDMY_strftime (dt : PyDate) (hm1 : 1 ≤ dt.month) (hm2 : dt.month ≤ 12)
    (hd1 : 1 ≤ dt.day) (hd2 : dt.day ≤ daysInMonth dt.year dt.month)
    (hy1 : 1 ≤ dt.year) (hy2 : dt.year ≤ 9999) :
    parseDMY (strftimeChars DateFmt.dmy dt) = some dt := by
  have hday : ∀ c ∈ pad2 dt.day, c ≠ '.' := pad2_ne_sep dt.day '.' (by decide)
  have hmon : ∀ c ∈ pad2 dt.month, c ≠ '.' := pad2_ne_sep dt.month '.' (by decide)
  have hyr : ∀ c ∈ pad4 dt.year, c ≠ '.' := pad4_ne_sep dt.year '.' (by decide)
  have hdaylt : dt.day < 100 := by
    have := daysInMonth_le dt.year dt.month
    omega
  have hsplit : splitCh '.' (strftimeChars DateFmt.dmy dt) =
      [pad2 dt.day, pad2 dt.month, pad4 dt.year] := by
    simp only [strftimeChars]
    rw [splitCh_sep_append '.' (pad2 dt.day) _ hday,
      splitCh_sep_append '.' (pad2 dt.month) _ hmon,
      splitCh_no_sep '.' (pad4 dt.year) hyr]
  simp only [parseDMY, hsplit, lexNum_pad2 dt.day hdaylt,
    lexNum_pad2 dt.month (by omega), lexNum_pad4 dt.year (by omega)]
  rw [mkValidDate, if_pos ⟨hy1, hy2, hm1, hm2, hd1, hd2⟩]

/-- Helper: a date rendered as %d.%m.%Y is rejected by %Y-%m-%d, since
it contains no dash, so the fallback to %d.%m.%Y is taken. -/
lemma parseYMD_strftime_dmy (dt : PyDate) :
    parseYMD (strftimeChars DateFmt.dmy dt) = none := by
  have h : ∀ c ∈ strftimeChars DateFmt.dmy dt, c ≠ '-' := by
    intro c hc
    simp only [strftimeChars, List.mem_append, List.mem_cons] at hc
    rcases hc with h1 | h1 | h1 | h1 | h1
    · exact pad2_ne_sep dt.day '-' (by decide) c h1
    · subst h1; decide
    · exact pad2_ne_sep dt.month '-' (by decide) c h1
    · subst h1; decide
    · exact pad4_ne_sep dt.year '-' (by decide) c h1
  simp only [parseYMD, splitCh_no_sep '-' _ h]

/-- C9: a watermark written by update_last_processed_date while the
settings range date contains a dot is written as %d.%m.%Y and parses
back through the settings reader to the identical calendar date.  Years
below 1000 are excluded because strftime renders them with fewer than
four digits on some platforms. -/
theorem c9_watermark_roundtrip (st : SettingsState) (s : String) (dt : PyDate)
    (hb3 : st.b3 = some s) (hdot : s.data.contains '.' = true)
    (hm1 : 1 ≤ dt.month) (hm2 : dt.month ≤ 12)
    (hd1 : 1 ≤ dt.day) (hd2 : dt.day ≤ daysInMonth dt.year dt.month)
    (hy1 : 1000 ≤ dt.year) (hy2 : dt.year ≤ 9999) :
    (update_last_processed_date st dt).b4 = some (strftime DateFmt.dmy dt) ∧
    parse_date (strftime DateFmt.dmy dt) = some dt := by
  have hs : s ≠ "" := by
    intro h
    rw [h] at hdot
    exact absurd hdot (by decide)
  have hdot2 : '.' ∈ s.data := by simpa using hdot
  have hfmt : get_original_date_format st = some DateFmt.dmy := by
    simp [get_original_date_format, hb3, hs, hdot2]
  constructor
  · simp [update_last_processed_date, hfmt]
  · have hne : strftime DateFmt.dmy dt ≠ "" := by
      intro h
      have h2 : strftimeChars DateFmt.dmy dt = "".data := congrArg String.data h
      have h3 : ("".data : List Char) = [] := rfl
      rw [h3] at h2
      simp [strftimeChars, pad2] at h2
    have h1 : parseYMD (strftime DateFmt.dmy dt).data = none := parseYMD_strftime_dmy dt
    have h2 : parseDMY (strftime DateFmt.dmy dt).data = some dt :=
      parseDMY_strftime dt hm1 hm2 hd1 hd2 (by omega) hy2
    simp [parse_date, hne, h1, h2]

/-- Witness for C9 at the stored range date 01.01.2025 and the
watermark date 15 June 2025. -/
theorem c9_watermark_roundtrip_witness :
    ("01.01.2025".data.contains '.') = true ∧
    parse_date (strftime DateFmt.dmy ⟨2025, 6, 15⟩) = some ⟨2025, 6, 15⟩ :=
  ⟨by decide,
    (c9_watermark_roundtrip ⟨some "01.01.2025", none⟩ "01.01.2025" ⟨2025, 6, 15⟩
      rfl (by decide) (by decide) (by decide) (by decide) (by decide)
      (by decide) (by decide)).2⟩

end WBPacking
